import Mathlib

/-!
# Verification of `app.py` (webgraphrag-flask)

A shallow embedding of the single source file `src/app.py`: a Flask
front-end with three pieces of logic —

* `load_datasets` (lines 61–76): read `<DATA_ROOT>/listing.json`,
  returning `[]` when the file is missing or its content is not valid
  JSON (only `json.JSONDecodeError` is caught);
* `graphrag_cli_query` (lines 27–55): build the argument vector
  `[sys.executable, "-m", "graphrag", "query", "--root", str(path),
  "--method", method, "--query", question]`, run it with `check=True`
  (raising `CalledProcessError` on a non-zero exit) and return
  `stdout.strip()`;
* the route handlers `index` (GET `/`, lines 85–89) and `ask`
  (POST `/ask`, lines 92–122).

Python dynamics that matter here are modelled explicitly: JSON values
as an inductive `Json`; the dict comprehension
`{d["key"]: d for d in load_datasets()}` via iteration (`pyIter`),
subscripting (`pySubscriptStr`), hashability (`toKey`) and in-place
overwriting insertion (`dictInsert`); `pathlib`'s `/` operator via
`pathJoin` (a POSIX join in which an absolute right operand discards
the left operand); exceptions as the error side of `Except PyErr`.
The external engine is an oracle `run : List String → ProcOutcome`
giving the subprocess outcome for each argument vector, and the
handler also returns the trace of argument vectors it launched.
-/

/-- A JSON value, as produced by Python's `json.load`. -/
inductive Json where
  | null
  | bool (b : Bool)
  | num (n : Int)
  | str (s : String)
  | arr (elts : List Json)
  | obj (fields : List (String × Json))

/-- A hashable JSON value, the only values Python accepts as dict
keys: `None`, booleans, numbers and strings (lists and dicts raise
`TypeError: unhashable type`).  Python's cross-type numeric equality
of keys (`True == 1`) is not modelled; the keys reachable from the
form — `None` and strings — compare exactly as in Python. -/
inductive JsonKey where
  | null
  | bool (b : Bool)
  | num (n : Int)
  | str (s : String)
  deriving DecidableEq

/-- The hashable-key view of a JSON value: `some` of the key for
hashable values, `none` for unhashable lists and dicts. -/
def toKey : Json → Option JsonKey
  | .null => some .null
  | .bool b => some (.bool b)
  | .num n => some (.num n)
  | .str s => some (.str s)
  | .arr _ => none
  | .obj _ => none

/-- The state of `<DATA_ROOT>/listing.json` as the process observes it:
missing (`Path.exists` false), existing but unreadable (`open` raises
`OSError`), existing but not valid UTF-8 (`json.load` raises
`UnicodeDecodeError`), valid text that is not valid JSON (`json.load`
raises `json.JSONDecodeError`), or valid JSON parsing to `j`. -/
inductive ListingState where
  | missing
  | unreadable
  | undecodable
  | malformed
  | wellFormed (j : Json)

/-- Python exceptions that the embedded code can propagate. -/
inductive PyErr where
  | osError
  | unicodeDecodeError
  | typeError (msg : String)
  | keyError
  deriving DecidableEq

/-- The outcome of one external subprocess: exit code and the fully
captured output streams (`capture_output=True, text=True`). -/
structure ProcOutcome where
  returncode : Int
  stdout : String
  stderr : String
  deriving DecidableEq

/-- The error `subprocess.CalledProcessError` as raised by `check=True`: the
non-zero exit code together with the captured stderr text. -/
structure CalledProcessError where
  returncode : Int
  stderr : String
  deriving DecidableEq

/-- The submitted form of a POST `/ask` request: each field is absent
(`none`) or a string, as in `request.form.get`. -/
structure Form where
  question : Option String
  dataset : Option String
  method : Option String
  deriving DecidableEq

/-- The HTTP response a handler produces: either
`flash(msg, category)` followed by `redirect(url_for(target))`, or
`render_template("index.html", ...)` with the template context used by
`app.py` (datasets, optional answer, echoed question, chosen dataset
key, method). -/
inductive Response where
  | redirect (target : String) (flashMsg : String) (flashCat : String)
  | page (datasets : Json) (answer : Option String) (askText : Option String)
      (chosen : Option String) (method : Option String)

/-- The loader `load_datasets` (app.py lines 61–76).  `listing.exists()` false
yields `[]`; `listing.open` on an unreadable file raises `OSError`
(not caught); `json.load` on non-UTF-8 bytes raises
`UnicodeDecodeError` (not caught — the `except` clause names only
`json.JSONDecodeError`); a JSON parse error is caught and yields `[]`;
otherwise the parsed value is returned verbatim. -/
def load_datasets : ListingState → Except PyErr Json
  | .missing => .ok (.arr [])
  | .unreadable => .error .osError
  | .undecodable => .error .unicodeDecodeError
  | .malformed => .ok (.arr [])
  | .wellFormed j => .ok j

/-- Python iteration `for d in v`: lists yield their elements, dicts
their keys, strings their characters; `None`, booleans and numbers
raise `TypeError`. -/
def pyIter : Json → Except PyErr (List Json)
  | .arr l => .ok l
  | .obj fields => .ok (fields.map (fun p => Json.str p.1))
  | .str s => .ok (s.toList.map (fun c => Json.str c.toString))
  | _ => .error (.typeError "object is not iterable")

/-- Python's `str.strip()` with no argument: drop leading and trailing
whitespace.  Implemented by structural recursion over the character
list so that it computes by kernel reduction (Lean's `String.trim` is
well-founded-recursive and does not).  ASCII whitespace suffices for
the strings of this development. -/
def String.pyStrip (s : String) : String :=
  String.mk
    (((s.data.dropWhile Char.isWhitespace).reverse.dropWhile
      Char.isWhitespace).reverse)

/-- Python's slice `s[:n]` on a string: the first `n` characters (all
of them when `n` exceeds the length), by structural recursion. -/
def String.pyTake (s : String) (n : Nat) : String :=
  String.mk (s.data.take n)

/-- Python subscripting `v[k]` with a string key `k`: dict lookup
(`KeyError` when absent; the last binding wins, as `json.load`
collapses duplicate object keys to the last), while strings and lists
require integer indices and other values are not subscriptable. -/
def pySubscriptStr (v : Json) (k : String) : Except PyErr Json :=
  match v with
  | .obj fields =>
    match fields.reverse.find? (fun p => p.1 == k) with
    | some p => .ok p.2
    | none => .error .keyError
  | .str _ => .error (.typeError "string indices must be integers")
  | .arr _ => .error (.typeError "list indices must be integers")
  | _ => .error (.typeError "object is not subscriptable")

/-- Insertion into a Python dict: the binding of an equal existing key
is overwritten in place, a new key is appended (insertion order). -/
def dictInsert : List (JsonKey × Json) → JsonKey → Json → List (JsonKey × Json)
  | [], k, v => [(k, v)]
  | p :: rest, k, v =>
    if p.1 = k then (k, v) :: rest else p :: dictInsert rest k v

/-- Lookup in the association list built by `dictInsert`. -/
def dictFind? (d : List (JsonKey × Json)) (k : JsonKey) : Option Json :=
  (d.find? (fun p => p.1 == k)).map (fun p => p.2)

/-- One step of the dict comprehension `{d["key"]: d for d in items}`:
evaluate `d["key"]` (which may raise `TypeError` or `KeyError`), hash
it (`TypeError` when unhashable), and insert. -/
def dictStep (acc : List (JsonKey × Json)) (d : Json) :
    Except PyErr (List (JsonKey × Json)) :=
  match pySubscriptStr d "key" with
  | .error e => .error e
  | .ok kv =>
    match toKey kv with
    | some k => .ok (dictInsert acc k d)
    | none => .error (.typeError "unhashable type")

/-- The dict comprehension `{d["key"]: d for d in items}` (app.py line
99). -/
def buildDatasetsDict (items : List Json) :
    Except PyErr (List (JsonKey × Json)) :=
  items.foldlM dictStep []

/-- Line 99 of app.py as a whole: `{d["key"]: d for d in load_datasets()}`. -/
def askDict (listing : ListingState) : Except PyErr (List (JsonKey × Json)) :=
  match load_datasets listing with
  | .error e => .error e
  | .ok loaded =>
    match pyIter loaded with
    | .error e => .error e
    | .ok items => buildDatasetsDict items

/-- The dict key corresponding to the form's `dataset` field:
`request.form.get("dataset")` is `None` when absent, a string
otherwise. -/
def keyOfForm : Option String → JsonKey
  | none => .null
  | some s => .str s

/-- POSIX absoluteness, as `pathlib.PurePosixPath.is_absolute`: the
path begins with a separator.  (Structural recursion over the
character list so that it computes by kernel reduction.) -/
def isAbsolutePath (p : String) : Bool :=
  match p.data with
  | [] => false
  | c :: _ => c == '/'

/-- The `pathlib` `/` operator (app.py line 106, `DATA_ROOT / path`):
an absolute right operand discards the left operand entirely; an empty
right operand leaves the left unchanged; otherwise the segments are
joined with a separator. -/
def pathJoin (root p : String) : String :=
  if isAbsolutePath p then p
  else if p = "" then root
  else root ++ "/" ++ p

/-- The argument vector of app.py lines 37–48: a discrete `List String`
handed to `subprocess.run` with no shell involved, so no element
undergoes shell interpretation. -/
def buildCmd (pythonExe datasetPath method question : String) : List String :=
  [pythonExe, "-m", "graphrag", "query",
   "--root", datasetPath,
   "--method", method,
   "--query", question]

/-- The invoker `graphrag_cli_query` (app.py lines 27–55), against the oracle
`run`: build the argument vector, run it; `check=True` raises
`CalledProcessError` (carrying the exit code and captured stderr) on a
non-zero exit, otherwise the captured stdout is returned with
`.strip()`.  The second component records the launched vectors. -/
def graphrag_cli_query (run : List String → ProcOutcome)
    (pythonExe : String) (dataset_path question : String)
    (method : String := "global") :
    Except CalledProcessError String × List (List String) :=
  let cmd := buildCmd pythonExe dataset_path method question
  let completed := run cmd
  if completed.returncode = 0 then
    (.ok completed.stdout.pyStrip, [cmd])
  else
    (.error ⟨completed.returncode, completed.stderr⟩, [cmd])

/-- The GET `/` handler `index` (app.py lines 85–89): load the
datasets (any exception propagates) and render the page with them. -/
def index (listing : ListingState) : Except PyErr Response :=
  match load_datasets listing with
  | .error e => .error e
  | .ok ds => .ok (.page ds none none none none)

/-- The POST `/ask` handler (app.py lines 92–122), against the
subprocess oracle `run`: extract and trim the form fields, build the
key→descriptor dict, validate, resolve the dataset path with `/`,
invoke `graphrag_cli_query` catching only `CalledProcessError` (whose
stderr is truncated to 500 characters and suffixed with `"..."`), and
render.  The second component is the trace of launched argument
vectors (empty iff no subprocess was started).  An `.error` result is
an exception escaping the handler to the HTTP layer. -/
def ask (run : List String → ProcOutcome) (pythonExe dataRoot : String)
    (listing : ListingState) (form : Form) :
    Except PyErr Response × List (List String) :=
  let question := (form.question.getD "").pyStrip
  let ds_key := form.dataset
  let method := form.method.getD "global"
  match askDict listing with
  | .error e => (.error e, [])
  | .ok datasets_dict =>
    if question = "" ∨ (dictFind? datasets_dict (keyOfForm ds_key)).isNone then
      (.ok (.redirect "index" "Please enter a question and choose a dataset."
        "danger"), [])
    else
      match dictFind? datasets_dict (keyOfForm ds_key) with
      | none => (.error .keyError, [])
      | some desc =>
        match pySubscriptStr desc "path" with
        | .error e => (.error e, [])
        | .ok pathVal =>
          match pathVal with
          | .str p =>
            let dataset_path := pathJoin dataRoot p
            let invoked := graphrag_cli_query run pythonExe dataset_path
              question method
            let answer := match invoked.1 with
              | .ok a => a
              | .error e =>
                "GraphRAG query failed:\n" ++ e.stderr.pyTake 500 ++ "..."
            (.ok (.page (.arr (datasets_dict.map (fun kv => kv.2)))
              (some answer) (some question) ds_key (some method)),
             invoked.2)
          | _ => (.error (.typeError
              "argument should be a str or an os.PathLike object"), [])

/-- Whether a descriptor's `"path"` entry exists and is a string — the
shape the success path of `ask` needs at line 106. -/
def hasStrPath (j : Json) : Bool :=
  match pySubscriptStr j "path" with
  | .ok (.str _) => true
  | _ => false

/-- The hashable key under which the comprehension at line 99 would
index a descriptor: `none` when `d["key"]` raises or is unhashable. -/
def descriptorKey (d : Json) : Option JsonKey :=
  match pySubscriptStr d "key" with
  | .ok v => toKey v
  | .error _ => none

/-! ## Concrete witness inputs -/

/-- An oracle for a failing external engine: exit code 1, stderr `"boom"`. -/
def run0 : List String → ProcOutcome := fun _ => ⟨1, "", "boom"⟩

/-- An oracle for a succeeding external engine with padded stdout. -/
def runParis : List String → ProcOutcome :=
  fun _ => ⟨0, "  Paris is the capital.  \n", ""⟩

/-- A well-formed dataset descriptor. -/
def desc0 : Json := .obj [("key", .str "alpha"), ("path", .str "alpha_data")]

/-- A listing file holding exactly `desc0`. -/
def listing0 : ListingState := .wellFormed (.arr [desc0])

/-- The dict the handler builds from `listing0`. -/
def dsd0 : List (JsonKey × Json) := [(.str "alpha", desc0)]

/-- A valid submitted form choosing `alpha` with method `local`. -/
def form0 : Form := ⟨some "What is X?", some "alpha", some "local"⟩

/-- Two descriptors sharing the key `"a"` with different paths. -/
def descA1 : Json := .obj [("key", .str "a"), ("path", .str "p1")]

/-- Second descriptor with the duplicated key `"a"`. -/
def descA2 : Json := .obj [("key", .str "a"), ("path", .str "p2")]

/-- A listing whose array duplicates the key `"a"`. -/
def itemsDup : List Json := [descA1, descA2]

/-- The dict built from `itemsDup`: one binding, the later descriptor. -/
def dsdDup : List (JsonKey × Json) := [(.str "a", descA2)]

/-- A descriptor whose `path` is absolute. -/
def descAbs : Json := .obj [("key", .str "alpha"), ("path", .str "/etc/graphrag")]

/-- A listing holding the absolute-path descriptor. -/
def listingAbs : ListingState := .wellFormed (.arr [descAbs])

/-- The dict the handler builds from `listingAbs`. -/
def dsdAbs : List (JsonKey × Json) := [(.str "alpha", descAbs)]

/-! ## Helper lemmas -/

theorem dictFind?_insert (d : List (JsonKey × Json)) (k q : JsonKey) (v : Json) :
    dictFind? (dictInsert d k v) q = if q = k then some v else dictFind? d q := by
  induction d with
  | nil =>
    by_cases h : q = k
    · subst h; simp [dictInsert, dictFind?]
    · have hkq : (k == q) = false := beq_eq_false_iff_ne.mpr (fun hh => h hh.symm)
      simp [dictInsert, dictFind?, hkq, h]
  | cons p rest ih =>
    by_cases hpk : p.1 = k
    · by_cases hq : q = k
      · subst hq
        simp [dictInsert, dictFind?, if_pos hpk]
      · have hkq : (k == q) = false := beq_eq_false_iff_ne.mpr (fun hh => hq hh.symm)
        have hpq : (p.1 == q) = false :=
          beq_eq_false_iff_ne.mpr (fun hh => hq (hh.symm.trans hpk))
        simp [dictInsert, dictFind?, if_pos hpk, hkq, hpq, hq]
    · by_cases hqp : p.1 = q
      · have hq : q ≠ k := fun h => hpk (hqp.trans h)
        have hpq : (p.1 == q) = true := beq_iff_eq.mpr hqp
        simp [dictInsert, dictFind?, if_neg hpk, hpq, hq]
      · have hpq : (p.1 == q) = false := beq_eq_false_iff_ne.mpr hqp
        simpa [dictInsert, dictFind?, if_neg hpk, hpq] using ih

theorem foldlM_dictStep_find (k : JsonKey) :
    ∀ (items : List Json) (acc dsd : List (JsonKey × Json)),
      List.foldlM dictStep acc items = .ok dsd →
      dictFind? dsd k =
        (items.reverse.find? (fun d => descriptorKey d == some k)).or
          (dictFind? acc k) := by
  intro items
  induction items with
  | nil =>
    intro acc dsd h
    rw [List.foldlM_nil] at h
    cases h
    simp
  | cons d rest ih =>
    intro acc dsd h
    rw [List.foldlM_cons] at h
    cases hstep : dictStep acc d with
    | error e => rw [hstep] at h; cases h
    | ok acc2 =>
      rw [hstep] at h
      replace h : List.foldlM dictStep acc2 rest = .ok dsd := h
      have hih := ih acc2 dsd h
      unfold dictStep at hstep
      split at hstep
      · cases hstep
      · rename_i kv heq
        split at hstep
        · rename_i k2 heq2
          injection hstep with hacc
          subst hacc
          have hdk : descriptorKey d = some k2 := by
            simp [descriptorKey, heq, heq2]
          rw [List.reverse_cons, List.find?_append, hih, dictFind?_insert]
          by_cases hkk : k2 = k
          · subst hkk
            have h1 : List.find? (fun x => descriptorKey x == some k2) [d]
                = some d := by
              simp [List.find?, hdk]
            rw [h1, if_pos rfl, Option.or_assoc]
            rfl
          · have h1 : List.find? (fun x => descriptorKey x == some k) [d]
                = none := by
              simp [List.find?, hdk, beq_eq_false_iff_ne.mpr hkk]
            rw [h1, if_neg (fun hh => hkk hh.symm), Option.or_none]
        · cases hstep

theorem ask_success_eq (run : List String → ProcOutcome)
    (pythonExe dataRoot : String) (listing : ListingState) (form : Form)
    (dsd : List (JsonKey × Json)) (desc : Json) (p : String)
    (hd : askDict listing = .ok dsd)
    (hq : (form.question.getD "").pyStrip ≠ "")
    (hk : dictFind? dsd (keyOfForm form.dataset) = some desc)
    (hp : pySubscriptStr desc "path" = .ok (.str p)) :
    ask run pythonExe dataRoot listing form =
      (.ok (.page (.arr (dsd.map (fun kv => kv.2)))
        (some (if (run (buildCmd pythonExe (pathJoin dataRoot p)
                (form.method.getD "global")
                ((form.question.getD "").pyStrip))).returncode = 0
          then (run (buildCmd pythonExe (pathJoin dataRoot p)
                (form.method.getD "global")
                ((form.question.getD "").pyStrip))).stdout.pyStrip
          else "GraphRAG query failed:\n" ++
            (run (buildCmd pythonExe (pathJoin dataRoot p)
                (form.method.getD "global")
                ((form.question.getD "").pyStrip))).stderr.pyTake 500 ++ "..."))
        (some ((form.question.getD "").pyStrip)) form.dataset
        (some (form.method.getD "global"))),
      [buildCmd pythonExe (pathJoin dataRoot p) (form.method.getD "global")
        ((form.question.getD "").pyStrip)]) := by
  simp only [ask, hd, hk, hp]
  have hcond : ¬((form.question.getD "").pyStrip = "" ∨
      (some desc).isNone = true) := by
    simp [hq]
  rw [if_neg hcond]
  simp only [graphrag_cli_query]
  by_cases hc : (run (buildCmd pythonExe (pathJoin dataRoot p)
      (form.method.getD "global")
      ((form.question.getD "").pyStrip))).returncode = 0
  · simp [hc]
  · simp [hc]

theorem isNone_of_eq_none {α : Type} {o : Option α} (h : o = none) :
    o.isNone = true := by rw [h]; rfl

/-! ## Claims -/

/-- C1: for every POST `/ask` request whose trimmed question is empty
(or whose question field is absent, which trims to empty) or whose
submitted dataset key matches no key of the loaded registry dict, the
handler launches no subprocess (empty trace), flashes the warning
message, and redirects to the form page. -/
theorem ask_validation_failure_redirects (run : List String → ProcOutcome)
    (pythonExe dataRoot : String) (listing : ListingState) (form : Form)
    (dsd : List (JsonKey × Json))
    (hd : askDict listing = .ok dsd)
    (hv : (form.question.getD "").pyStrip = "" ∨
      dictFind? dsd (keyOfForm form.dataset) = none) :
    ask run pythonExe dataRoot listing form =
      (.ok (.redirect "index" "Please enter a question and choose a dataset."
        "danger"), []) := by
  simp only [ask, hd]
  rw [if_pos (hv.imp id isNone_of_eq_none)]

/-- Witness for C1: a whitespace-only question over a valid listing
redirects with the flash warning and an empty subprocess trace. -/
theorem ask_validation_failure_redirects_witness :
    ask run0 "python" "/data" listing0 ⟨some "   ", some "alpha", none⟩ =
      (.ok (.redirect "index" "Please enter a question and choose a dataset."
        "danger"), []) :=
  ask_validation_failure_redirects run0 "python" "/data" listing0
    ⟨some "   ", some "alpha", none⟩ dsd0 rfl (Or.inl (by decide))

/-- C2: whenever a POST `/ask` request reaches the invoker and the
external process exits non-zero with stderr `s`, the rendered answer is
exactly `"GraphRAG query failed:\n"` ++ the first 500 characters of `s`
++ `"..."`, the ellipsis appended unconditionally. -/
theorem ask_failure_answer_truncates_stderr (run : List String → ProcOutcome)
    (pythonExe dataRoot : String) (listing : ListingState) (form : Form)
    (dsd : List (JsonKey × Json)) (desc : Json) (p : String)
    (po : ProcOutcome)
    (hd : askDict listing = .ok dsd)
    (hq : (form.question.getD "").pyStrip ≠ "")
    (hk : dictFind? dsd (keyOfForm form.dataset) = some desc)
    (hp : pySubscriptStr desc "path" = .ok (.str p))
    (hr : run (buildCmd pythonExe (pathJoin dataRoot p)
      (form.method.getD "global") ((form.question.getD "").pyStrip)) = po)
    (hc : po.returncode ≠ 0) :
    ask run pythonExe dataRoot listing form =
      (.ok (.page (.arr (dsd.map (fun kv => kv.2)))
        (some ("GraphRAG query failed:\n" ++ po.stderr.pyTake 500 ++ "..."))
        (some ((form.question.getD "").pyStrip)) form.dataset
        (some (form.method.getD "global"))),
      [buildCmd pythonExe (pathJoin dataRoot p) (form.method.getD "global")
        ((form.question.getD "").pyStrip)]) := by
  rw [ask_success_eq run pythonExe dataRoot listing form dsd desc p hd hq hk hp]
  rw [hr, if_neg hc]

/-- Witness for C2: stderr `"boom"` (shorter than 500 characters) still
gets the `"..."` suffix: the answer is `"GraphRAG query failed:\nboom..."`. -/
theorem ask_failure_answer_truncates_stderr_witness :
    ask run0 "python" "/data" listing0 form0 =
      (.ok (.page (.arr [desc0])
        (some "GraphRAG query failed:\nboom...")
        (some "What is X?") (some "alpha") (some "local")),
      [["python", "-m", "graphrag", "query", "--root", "/data/alpha_data",
        "--method", "local", "--query", "What is X?"]]) := by
  have h := ask_failure_answer_truncates_stderr run0 "python" "/data" listing0
    form0 dsd0 desc0 "alpha_data" ⟨1, "", "boom"⟩ rfl (by decide) rfl rfl rfl
    (by decide)
  rw [h]
  rfl

/-- C3 counterexample: `load_datasets` does propagate errors for an
existing-but-unreadable file (`OSError` from `open`) and for
non-UTF-8 content (`UnicodeDecodeError` from `json.load`): only
`json.JSONDecodeError` is caught, so "never raises for every state of
the listing file" is false. -/
theorem load_datasets_raises_counterexample :
    load_datasets ListingState.unreadable = .error .osError ∧
    load_datasets ListingState.undecodable = .error .unicodeDecodeError :=
  ⟨rfl, rfl⟩

/-- C3 amended: for every listing state other than an unreadable file
or undecodable bytes — i.e. missing, JSON-malformed, or well-formed —
`load_datasets` returns normally, and the missing and malformed states
both degrade to the empty list. -/
theorem load_datasets_total_outside_unreadable_undecodable
    (st : ListingState) :
    (st ≠ .unreadable → st ≠ .undecodable →
      ∃ v, load_datasets st = .ok v) ∧
    ((st = .missing ∨ st = .malformed) →
      load_datasets st = .ok (.arr [])) := by
  cases st <;> refine ⟨?_, ?_⟩ <;> simp [load_datasets]

/-- Witness for C3's amended claim, at the missing-file state. -/
theorem load_datasets_total_witness :
    (∃ v, load_datasets ListingState.missing = .ok v) ∧
      load_datasets ListingState.missing = .ok (.arr []) :=
  ⟨(load_datasets_total_outside_unreadable_undecodable .missing).1
      (fun h => ListingState.noConfusion h)
      (fun h => ListingState.noConfusion h),
   (load_datasets_total_outside_unreadable_undecodable .missing).2
      (Or.inl rfl)⟩

/-- C4: for well-formed `listing.json` content parsing to an array,
`load_datasets` returns the parsed array verbatim — no schema
validation of its elements — and the missing-file and malformed-JSON
states return the empty sequence. -/
theorem load_datasets_verbatim_or_empty :
    (∀ l : List Json, load_datasets (.wellFormed (.arr l)) = .ok (.arr l)) ∧
    load_datasets .missing = .ok (.arr []) ∧
    load_datasets .malformed = .ok (.arr []) :=
  ⟨fun _ => rfl, rfl, rfl⟩

/-- C5: the Query Invoker fails exactly when the external process
exits non-zero, and then carries the exit code and the captured stderr
text; on exit code zero it returns the captured stdout with leading
and trailing whitespace trimmed. -/
theorem graphrag_cli_query_spec (run : List String → ProcOutcome)
    (pythonExe dataset_path question method : String) :
    ((run (buildCmd pythonExe dataset_path method question)).returncode = 0 →
      graphrag_cli_query run pythonExe dataset_path question method =
        (.ok (run (buildCmd pythonExe dataset_path method question)).stdout.pyStrip,
         [buildCmd pythonExe dataset_path method question])) ∧
    ((run (buildCmd pythonExe dataset_path method question)).returncode ≠ 0 →
      graphrag_cli_query run pythonExe dataset_path question method =
        (.error ⟨(run (buildCmd pythonExe dataset_path method question)).returncode,
          (run (buildCmd pythonExe dataset_path method question)).stderr⟩,
         [buildCmd pythonExe dataset_path method question])) := by
  refine ⟨fun h => ?_, fun h => ?_⟩ <;> simp [graphrag_cli_query, h]

/-- Witness for C5: the success case trims
`"  Paris is the capital.  \n"` to `"Paris is the capital."`, and the
failure case carries exit code 1 with stderr `"boom"`. -/
theorem graphrag_cli_query_spec_witness :
    graphrag_cli_query runParis "python" "/data/alpha_data" "What is X?"
        "local" =
      (.ok "Paris is the capital.",
       [buildCmd "python" "/data/alpha_data" "local" "What is X?"]) ∧
    graphrag_cli_query run0 "python" "/data/alpha_data" "What is X?"
        "local" =
      (.error ⟨1, "boom"⟩,
       [buildCmd "python" "/data/alpha_data" "local" "What is X?"]) :=
  ⟨(graphrag_cli_query_spec runParis "python" "/data/alpha_data" "What is X?"
      "local").1 (by decide),
   (graphrag_cli_query_spec run0 "python" "/data/alpha_data" "What is X?"
      "local").2 (by decide)⟩

/-- C6: every POST `/ask` request that passes validation launches the
external engine exactly once, with the discrete argument vector
containing `query`, `--root` followed by `DATA_ROOT` joined with the
descriptor's path, `--method` followed by the method, and `--query`
followed by the question — a `List String`, with no shell involved, so
no argument undergoes shell interpretation. -/
theorem ask_invokes_discrete_argument_vector (run : List String → ProcOutcome)
    (pythonExe dataRoot : String) (listing : ListingState) (form : Form)
    (dsd : List (JsonKey × Json)) (desc : Json) (p : String)
    (hd : askDict listing = .ok dsd)
    (hq : (form.question.getD "").pyStrip ≠ "")
    (hk : dictFind? dsd (keyOfForm form.dataset) = some desc)
    (hp : pySubscriptStr desc "path" = .ok (.str p)) :
    (ask run pythonExe dataRoot listing form).2 =
      [[pythonExe, "-m", "graphrag", "query",
        "--root", pathJoin dataRoot p,
        "--method", form.method.getD "global",
        "--query", (form.question.getD "").pyStrip]] := by
  rw [ask_success_eq run pythonExe dataRoot listing form dsd desc p hd hq hk hp]
  rfl

/-- Witness for C6: the scenario of the spec — question `"What is X?"`,
existing dataset `"alpha"` with path `"alpha_data"`, method `"local"` —
launches exactly the expected vector with resolved path
`/data/alpha_data`. -/
theorem ask_invokes_discrete_argument_vector_witness :
    (ask run0 "python" "/data" listing0 form0).2 =
      [["python", "-m", "graphrag", "query", "--root", "/data/alpha_data",
        "--method", "local", "--query", "What is X?"]] := by
  have h := ask_invokes_discrete_argument_vector run0 "python" "/data"
    listing0 form0 dsd0 desc0 "alpha_data" rfl (by decide) rfl rfl
  rw [h]
  rfl

/-- C7 counterexample: the claim "every request yields a page or a
redirect, never an unhandled exception" fails.  A well-formed listing
whose array holds the number `1` makes the POST handler raise
`TypeError` at `d["key"]` (line 99), and an existing-but-unreadable
listing file makes the GET handler propagate `OSError` from
`load_datasets`. -/
theorem handlers_unhandled_exception_counterexample :
    ask run0 "python" "/data" (.wellFormed (.arr [.num 1]))
        ⟨some "x", some "a", none⟩ =
      (.error (.typeError "object is not subscriptable"), []) ∧
    index ListingState.unreadable = .error .osError :=
  ⟨rfl, rfl⟩

/-- C7 amended: provided the listing loads and indexes cleanly — the
file is readable, decodable and parses, every element of the resulting
iteration has a hashable `"key"`, and every indexed descriptor has a
string `"path"` — both handlers return a rendered page or a redirect
and never an exception. -/
theorem handlers_total_on_wellformed_registry (run : List String → ProcOutcome)
    (pythonExe dataRoot : String) (listing : ListingState) (form : Form)
    (dsd : List (JsonKey × Json))
    (hd : askDict listing = .ok dsd)
    (hpaths : dsd.all (fun kv => hasStrPath kv.2) = true) :
    (∃ r tr, ask run pythonExe dataRoot listing form = (.ok r, tr)) ∧
    (∃ r2, index listing = .ok r2) := by
  constructor
  · by_cases hv : (form.question.getD "").pyStrip = "" ∨
        dictFind? dsd (keyOfForm form.dataset) = none
    · have heq : ask run pythonExe dataRoot listing form =
          (.ok (.redirect "index"
            "Please enter a question and choose a dataset." "danger"), []) := by
        simp only [ask, hd]
        rw [if_pos (hv.imp id isNone_of_eq_none)]
      exact ⟨_, _, heq⟩
    · push_neg at hv
      obtain ⟨hq, hknone⟩ := hv
      obtain ⟨desc, hk⟩ := Option.ne_none_iff_exists'.mp hknone
      have hmem : ∃ kv ∈ dsd, kv.2 = desc := by
        unfold dictFind? at hk
        cases hfind : dsd.find? (fun p => p.1 == keyOfForm form.dataset) with
        | none => rw [hfind] at hk; cases hk
        | some kv =>
          rw [hfind] at hk
          injection hk with h2
          exact ⟨kv, List.mem_of_find?_eq_some hfind, h2⟩
      obtain ⟨kv, hkvmem, hkv2⟩ := hmem
      have hsp : hasStrPath desc = true := by
        rw [← hkv2]
        exact List.all_eq_true.mp hpaths kv hkvmem
      have hpex : ∃ p, pySubscriptStr desc "path" = .ok (.str p) := by
        unfold hasStrPath at hsp
        split at hsp
        · rename_i s heq
          exact ⟨s, heq⟩
        · cases hsp
      obtain ⟨p, hp⟩ := hpex
      have heq := ask_success_eq run pythonExe dataRoot listing form dsd desc p
        hd hq hk hp
      exact ⟨_, _, heq⟩
  · cases hls : load_datasets listing with
    | error e =>
      exfalso
      unfold askDict at hd
      rw [hls] at hd
      cases hd
    | ok v =>
      refine ⟨.page v none none none none, ?_⟩
      unfold index
      rw [hls]

/-- Witness for C7's amended claim: over the clean listing `listing0`,
a valid form request renders a page and the GET handler renders the
dataset list. -/
theorem handlers_total_on_wellformed_registry_witness :
    (∃ r tr, ask run0 "python" "/data" listing0 form0 = (.ok r, tr)) ∧
    (∃ r2, index listing0 = .ok r2) :=
  handlers_total_on_wellformed_registry run0 "python" "/data" listing0 form0
    dsd0 rfl (by decide)

/-- C8: whenever the registry sequence contains duplicate keys, the
key→descriptor dict built by the POST handler (line 99) maps each key
to the *last* descriptor of the sequence bearing it: looking a key up
in the built dict equals searching the reversed item list for the
first descriptor indexed under that key. -/
theorem datasets_dict_last_occurrence_wins (items : List Json)
    (dsd : List (JsonKey × Json)) (k : JsonKey)
    (hbuild : buildDatasetsDict items = .ok dsd) :
    dictFind? dsd k =
      items.reverse.find? (fun d => descriptorKey d == some k) := by
  have h := foldlM_dictStep_find k items [] dsd hbuild
  simpa [dictFind?] using h

/-- Witness for C8: two descriptors share the key `"a"`; the built
dict maps `"a"` to the second (paths `"p1"` vs `"p2"`: the lookup
yields the `"p2"` descriptor). -/
theorem datasets_dict_last_occurrence_wins_witness :
    buildDatasetsDict itemsDup = .ok dsdDup ∧
    dictFind? dsdDup (.str "a") = some descA2 := by
  refine ⟨rfl, ?_⟩
  have h := datasets_dict_last_occurrence_wins itemsDup dsdDup (.str "a") rfl
  rw [h]
  rfl

/-- C9: when the form's `method` field is absent, the handler uses
`"global"`: the invoker is launched with `--method global` and the
rendered page reports method `"global"`. -/
theorem ask_method_defaults_to_global (run : List String → ProcOutcome)
    (pythonExe dataRoot : String) (listing : ListingState) (form : Form)
    (dsd : List (JsonKey × Json)) (desc : Json) (p : String)
    (hm : form.method = none)
    (hd : askDict listing = .ok dsd)
    (hq : (form.question.getD "").pyStrip ≠ "")
    (hk : dictFind? dsd (keyOfForm form.dataset) = some desc)
    (hp : pySubscriptStr desc "path" = .ok (.str p)) :
    ask run pythonExe dataRoot listing form =
      (.ok (.page (.arr (dsd.map (fun kv => kv.2)))
        (some (if (run (buildCmd pythonExe (pathJoin dataRoot p) "global"
                ((form.question.getD "").pyStrip))).returncode = 0
          then (run (buildCmd pythonExe (pathJoin dataRoot p) "global"
                ((form.question.getD "").pyStrip))).stdout.pyStrip
          else "GraphRAG query failed:\n" ++
            (run (buildCmd pythonExe (pathJoin dataRoot p) "global"
                ((form.question.getD "").pyStrip))).stderr.pyTake 500
            ++ "..."))
        (some ((form.question.getD "").pyStrip)) form.dataset
        (some "global")),
      [buildCmd pythonExe (pathJoin dataRoot p) "global"
        ((form.question.getD "").pyStrip)]) := by
  have h := ask_success_eq run pythonExe dataRoot listing form dsd desc p
    hd hq hk hp
  rw [hm] at h
  simpa using h

/-- Witness for C9: a form with no `method` field invokes with
`--method global` and the page reports `"global"`. -/
theorem ask_method_defaults_to_global_witness :
    ask run0 "python" "/data" listing0 ⟨some "q", some "alpha", none⟩ =
      (.ok (.page (.arr [desc0]) (some "GraphRAG query failed:\nboom...")
        (some "q") (some "alpha") (some "global")),
      [["python", "-m", "graphrag", "query", "--root", "/data/alpha_data",
        "--method", "global", "--query", "q"]]) := by
  have h := ask_method_defaults_to_global run0 "python" "/data" listing0
    ⟨some "q", some "alpha", none⟩ dsd0 desc0 "alpha_data" rfl rfl
    (by decide) rfl rfl
  rw [h]
  rfl

/-- C10: when a descriptor's `path` is an absolute path, the POSIX
`/` join discards `DATA_ROOT`: the `--root` argument passed to the
engine is the descriptor's absolute path itself, so a listing entry
can direct a query at any directory of the filesystem. -/
theorem ask_absolute_descriptor_path_discards_root
    (run : List String → ProcOutcome)
    (pythonExe dataRoot : String) (listing : ListingState) (form : Form)
    (dsd : List (JsonKey × Json)) (desc : Json) (p : String)
    (habs : isAbsolutePath p = true)
    (hd : askDict listing = .ok dsd)
    (hq : (form.question.getD "").pyStrip ≠ "")
    (hk : dictFind? dsd (keyOfForm form.dataset) = some desc)
    (hp : pySubscriptStr desc "path" = .ok (.str p)) :
    (ask run pythonExe dataRoot listing form).2 =
      [[pythonExe, "-m", "graphrag", "query",
        "--root", p,
        "--method", form.method.getD "global",
        "--query", (form.question.getD "").pyStrip]] := by
  rw [ask_success_eq run pythonExe dataRoot listing form dsd desc p hd hq hk hp]
  simp [buildCmd, pathJoin, habs]

/-- Witness for C10: a descriptor with absolute path `/etc/graphrag`
under `DATA_ROOT = /data` makes the engine run with
`--root /etc/graphrag` — `/data` is discarded. -/
theorem ask_absolute_descriptor_path_discards_root_witness :
    (ask run0 "python" "/data" listingAbs form0).2 =
      [["python", "-m", "graphrag", "query", "--root", "/etc/graphrag",
        "--method", "local", "--query", "What is X?"]] := by
  have h := ask_absolute_descriptor_path_discards_root run0 "python" "/data"
    listingAbs form0 dsdAbs descAbs "/etc/graphrag" (by decide) rfl
    (by decide) rfl rfl
  rw [h]
  rfl
